import Mathlib

/-!
Verification of the core of the Sri Lanka vehicle information scraper
(`vehicle_scraper.py` and `app.py`) through a shallow embedding in Lean.

The embedding models:
* the HTML field extractor `VehicleInfoScraper.parse_vehicle_info`
  (an HTML document is abstracted to the data the function inspects:
  the optional pre-extracted "Report Date" text and the optional results
  table, given as the list of its rows, each row the list of the text
  contents of its `td` cells);
* the single-key fetcher `VehicleInfoScraper.get_vehicle_info`
  (the network is an oracle mapping the issued request to an outcome;
  the function additionally returns the list of requests it issued so
  that "exactly one request, no retry" is provable);
* the pooled coordinator `VehicleInfoScraper.process_vehicles`
  (the thread pool is abstracted to the multiset of completed futures,
  given as a completion-ordered list that is a permutation of the input
  key list, plus a per-key task outcome: the task's returned record or
  the exception observed at `future.result()`);
* the web background task `run_scraping_task` of `app.py`
  (a sequential loop with a cooperative cancellation check at the top
  of each iteration; cancellation is abstracted to the first loop index
  at which the `is_running` flag is observed false);
* the worker-pool timing model for the concurrency bound
  (each task is assigned to one of `max_workers` workers; tasks on the
  same worker run sequentially, which is the `ThreadPoolExecutor`
  contract the code relies on).

Time stamps (`datetime.now()`) are modelled as natural-number parameters,
`time.sleep` pacing and logging calls have no observable effect on the
returned data and are omitted, and file saving is outside the core.
-/

namespace VehicleScraper

/-- Boolean test that the character list `pat` occurs at the start of `l`. -/
def charsStartWith : List Char → List Char → Bool
  | [], _ => true
  | _ :: _, [] => false
  | a :: as, b :: bs => a == b && charsStartWith as bs

/-- Boolean substring test on character lists: `pat` occurs somewhere in the list. -/
def charsContain (pat : List Char) : List Char → Bool
  | [] => charsStartWith pat []
  | c :: cs => charsStartWith pat (c :: cs) || charsContain pat cs

/-- Model of the Python operator `pat in s` on strings (substring containment). -/
def pyContains (pat s : String) : Bool :=
  charsContain pat.toList s.toList

/-- Model of Python `str.lower()` (character-wise lower casing). -/
def pyLower (s : String) : String :=
  String.mk (s.toList.map Char.toLower)

/-- Model of Python `str.strip()` and of `get_text(strip=True)`:
drop leading and trailing whitespace. -/
def pyStrip (s : String) : String :=
  String.mk (((s.toList.dropWhile Char.isWhitespace).reverse.dropWhile
    Char.isWhitespace).reverse)

/-- The fixed set of extracted string attributes of a successful record,
with the defaults installed at the top of `parse_vehicle_info`
(`vehicle_scraper.py` lines 92-104; the key, status and timestamp keys of
that dictionary are carried by `Record` below). -/
structure Fields where
  report_date : String := ""
  name_of_ownership : String := ""
  engine_number : String := ""
  vehicle_class : String := ""
  conditions_and_notes : String := ""
  make : String := ""
  model : String := ""
  year_of_manufacture : String := ""
  deriving DecidableEq

/-- One result dictionary of the scraper. In the Python source a success
dictionary carries all eight attribute keys and no `error` key, while the
failure dictionaries carry an `error` key and none of the attribute keys;
this all-or-nothing key presence is modelled by `attrs : Option Fields`
and `error : Option String`. -/
structure Record where
  vehicle_number : String
  attrs : Option Fields
  status : String
  error : Option String
  timestamp : Nat
  deriving DecidableEq

/-- Abstraction of a parsed HTML document (`BeautifulSoup` result): the
data `parse_vehicle_info` inspects. `reportDate` is the text captured by
the "Report Date" label scan (lines 107-114) when that pipeline finds a
match; `table` is the results table found by
`soup.find('table', class_='table table-striped table-condensed')`, as
the list of its rows, each row the list of its `td` cell texts
(`get_text` is applied by the extractor itself, so cells are raw). The
registration-number cross-check (lines 117-126) only logs and has no
effect on the returned dictionary, so it is not represented. -/
structure Soup where
  reportDate : Option String
  table : Option (List (List String))
  deriving DecidableEq

/-- The raw HTML handed to `parse_vehicle_info`: either it scans into a
`Soup`, or a structural error is raised while scanning (the `except`
branch of lines 160-167), carrying the exception text. -/
inductive HtmlContent where
  | ok (soup : Soup)
  | scanError (msg : String)
  deriving DecidableEq

/-- The label-to-field `if`/`elif` chain of `parse_vehicle_info`
(lines 143-156), applied to the normalized label text and the stripped
value text of one table row. Each matching row assigns the field. -/
def applyLabel (result : Fields) (label_text value_text : String) : Fields :=
  if pyContains "name of the absolute ownership" label_text
      || pyContains "mortgage if any" label_text then
    { result with name_of_ownership := value_text }
  else if pyContains "engine number" label_text then
    { result with engine_number := value_text }
  else if pyContains "vehicle class" label_text then
    { result with vehicle_class := value_text }
  else if pyContains "conditions and notes" label_text then
    { result with conditions_and_notes := value_text }
  else if pyContains "make" label_text && !pyContains "year" label_text then
    { result with make := value_text }
  else if pyContains "model" label_text then
    { result with model := value_text }
  else if pyContains "year of manufacture" label_text then
    { result with year_of_manufacture := value_text }
  else
    result

/-- One iteration of the row loop of `parse_vehicle_info` (lines 133-156):
a row with at least three `td` cells contributes its first cell as label
(stripped, lower-cased) and its third cell as value (stripped); shorter
rows are skipped. -/
def applyRow (result : Fields) (cells : List String) : Fields :=
  match cells with
  | label_cell :: _ :: value_cell :: _ =>
      applyLabel result (pyLower (pyStrip label_cell)) (pyStrip value_cell)
  | _ => result

/-- Embedding of `VehicleInfoScraper.parse_vehicle_info`
(`vehicle_scraper.py` lines 77-167). `now` is the value of
`datetime.now().isoformat()`. -/
def parse_vehicle_info (html : HtmlContent) (vehicle_number : String)
    (now : Nat) : Record :=
  match html with
  | .scanError e =>
      { vehicle_number := vehicle_number
        attrs := none
        status := "parse_error"
        error := some ("HTML parsing failed: " ++ e)
        timestamp := now }
  | .ok soup =>
      let fields0 : Fields := {}
      let fields1 : Fields :=
        match soup.reportDate with
        | some d => { fields0 with report_date := pyStrip d }
        | none => fields0
      let fields2 : Fields :=
        match soup.table with
        | some rows => rows.foldl applyRow fields1
        | none => fields1
      { vehicle_number := vehicle_number
        attrs := some fields2
        status := "success"
        error := none
        timestamp := now }

/-- The per-run scraper configuration (`VehicleInfoScraper.__init__`,
`vehicle_scraper.py` lines 29-49). Durations are abstract time units.
The fixed HTTP headers and cookies of lines 52-75 do not influence any
behaviour modelled here beyond being part of each request, so they are
not carried explicitly. -/
structure ScraperConfig where
  max_workers : Nat := 5
  delay_between_requests : Nat := 1
  fixed_nic : String := "2200000000"
  fixed_contact : String := "0777777777"
  jsessionid : Option String := none
  deriving DecidableEq

/-- The fixed endpoint URL (`self.base_url`, line 46). -/
def base_url : String :=
  "https://eservices.motortraffic.gov.lk/VehicleInfo/retrieveLimitedVehicleInformation.action"

/-- One outbound HTTP request as issued by `requests.post` in
`get_vehicle_info` (lines 184-198): the URL, the form data (the two fixed
account strings plus the vehicle number) and the request timeout. -/
structure Request where
  url : String
  nicNumber : String
  contactNumber : String
  vehicleRegistrationNumber : String
  timeout : Nat
  deriving DecidableEq

/-- The request `get_vehicle_info` builds for a vehicle number:
`requests.post(self.base_url, ..., data=data, timeout=30)`. -/
def mkRequest (cfg : ScraperConfig) (vehicle_number : String) : Request :=
  { url := base_url
    nicNumber := cfg.fixed_nic
    contactNumber := cfg.fixed_contact
    vehicleRegistrationNumber := vehicle_number
    timeout := 30 }

/-- A transport-level exception raised by `requests.post`. `timeoutErr`
models `requests.exceptions.ReadTimeout`; the `str` of that exception (the
text the `except` branch stores) mentions the phrase "timed out", as in
the requests library message
`HTTPSConnectionPool(...): Read timed out. (read timeout=30)`. -/
inductive TransportExn where
  | timeoutErr
  | connError (msg : String)
  | otherErr (msg : String)
  deriving DecidableEq

/-- The Python `str(e)` of a transport exception. -/
def TransportExn.str : TransportExn → String
  | .timeoutErr =>
      "HTTPSConnectionPool(host=eservices.motortraffic.gov.lk, port=443): Read timed out. (read timeout=30)"
  | .connError m => m
  | .otherErr m => m

/-- The outcome of one issued request: a response with a status code and
a body, or a raised transport exception. -/
inductive HTTPOutcome where
  | response (status_code : Nat) (text : HtmlContent)
  | transportError (e : TransportExn)
  deriving DecidableEq

/-- Embedding of `VehicleInfoScraper.get_vehicle_info`
(`vehicle_scraper.py` lines 169-222). `transport` is the network oracle
giving the outcome of the one request the function issues; `now` is the
creation time of the record. The second component of the result is the
list of requests issued during the call (the Python body performs its
`time.sleep` pacing, then exactly one `requests.post`, and never loops or
retries). A `200` response is parsed; any other status code yields the
dictionary with status `'failed'` and error `"HTTP {code}"`; a raised
exception yields status `'failed'` with `str(e)` as the error. -/
def get_vehicle_info (cfg : ScraperConfig) (transport : Request → HTTPOutcome)
    (vehicle_number : String) (now : Nat) : Record × List Request :=
  let req := mkRequest cfg vehicle_number
  match transport req with
  | .response status_code text =>
      if status_code == 200 then
        (parse_vehicle_info text vehicle_number now, [req])
      else
        ({ vehicle_number := vehicle_number
           attrs := none
           status := "failed"
           error := some ("HTTP " ++ toString status_code)
           timestamp := now }, [req])
  | .transportError e =>
      ({ vehicle_number := vehicle_number
         attrs := none
         status := "failed"
         error := some e.str
         timestamp := now }, [req])

/-- What `future.result()` yields for one submitted key in
`process_vehicles`: either the task ran `get_vehicle_info` to completion
(with its network oracle and observation time), or an unexpected
exception escaped the task and `future.result()` re-raises it, observed
as `str(exc)`. -/
inductive TaskOutcome where
  | finished (transport : Request → HTTPOutcome) (now : Nat)
  | raised (msg : String) (now : Nat)

/-- The record `process_vehicles` appends for one completed future
(lines 244-257): the task's returned dictionary, or — when
`future.result()` raised — the `except` branch's failure dictionary
carrying the exception text. -/
def taskRecord (cfg : ScraperConfig) (task : String → TaskOutcome)
    (vehicle_number : String) : Record :=
  match task vehicle_number with
  | .finished transport now => (get_vehicle_info cfg transport vehicle_number now).1
  | .raised msg now =>
      { vehicle_number := vehicle_number
        attrs := none
        status := "failed"
        error := some msg
        timestamp := now }

/-- Embedding of `VehicleInfoScraper.process_vehicles`
(`vehicle_scraper.py` lines 224-259). All keys are submitted to the pool;
`as_completed` then yields every submitted future exactly once, in an
arbitrary completion order, so the loop is modelled as a map over
`completed`, a completion-ordered permutation of the input key list. The
Python guard `if result:` never drops a record because
`get_vehicle_info` always returns a non-empty (hence truthy)
dictionary. -/
def process_vehicles (cfg : ScraperConfig) (task : String → TaskOutcome)
    (completed : List String) : List Record :=
  completed.map (taskRecord cfg task)

/-- The fields of the terminal `scraping_status` dictionary written by
`run_scraping_task` in `app.py` (lines 235-251) that the core claims
speak about. The progress-reporting fields (`total`, `current_vehicle`,
`start_time`, `estimated_time_remaining`) and the saved-file names are
observability data not modelled here. -/
structure WebStatus where
  is_running : Bool
  progress : Nat
  results : List Record
  completed : Bool
  error : Option String
  deriving DecidableEq

/-- Whether the `is_running` flag reads false at the cancellation check
of loop iteration `i` (`app.py` line 202). `cancelAt = some c` means a
stop was requested before check `c` (the flag, once cleared by
`cancel_scraping`, stays cleared for the rest of the run), `none` means
no stop is ever requested. -/
def cancelledAt (cancelAt : Option Nat) (i : Nat) : Bool :=
  match cancelAt with
  | some c => decide (c ≤ i)
  | none => false

/-- The result list collected by the loop of `run_scraping_task`
(`app.py` lines 200-221), starting at iteration index `i`: each
iteration first checks the cancellation flag and breaks if it is
cleared, then runs `scraper.get_vehicle_info` for its key and appends
the record (`if result:` never drops, as above). `transport` gives each
key's network outcome and `times` each key's observation time. -/
def webResults (cfg : ScraperConfig) (transport : Request → HTTPOutcome)
    (times : String → Nat) (cancelAt : Option Nat) :
    List String → Nat → List Record
  | [], _ => []
  | vn :: rest, i =>
      if cancelledAt cancelAt i then []
      else
        (get_vehicle_info cfg transport vn (times vn)).1 ::
          webResults cfg transport times cancelAt rest (i + 1)

/-- Embedding of the web background task `run_scraping_task`
(`app.py` lines 183-251) on its normal and cancelled paths: run the
sequential loop, then write the terminal status — `is_running := false`,
`progress := len(vehicle_numbers)`, the collected results and
`completed := true` — exactly as the final `scraping_status.update`
does, whether or not the loop was broken by cancellation. (The `except`
branch of lines 245-251, which records an error and `completed := false`,
is reachable only through I/O failures outside this pure core.) -/
def run_scraping_task (cfg : ScraperConfig) (transport : Request → HTTPOutcome)
    (times : String → Nat) (vehicle_numbers : List String)
    (cancelAt : Option Nat) : WebStatus :=
  { is_running := false
    progress := vehicle_numbers.length
    results := webResults cfg transport times cancelAt vehicle_numbers 0
    completed := true
    error := none }

/-- A timed execution of `n` tasks on the pool
`ThreadPoolExecutor(max_workers=c)` created by `process_vehicles`
(line 236): every task is assigned to one of the `c` worker threads,
runs over the half-open time interval `[startTime i, finishTime i)`, and
tasks assigned to the same worker run sequentially (one thread executes
one task at a time) — this sequencing is the executor's contract. -/
structure PoolRun (n c : Nat) where
  assign : Fin n → Fin c
  startTime : Fin n → Nat
  finishTime : Fin n → Nat
  workerSeq : ∀ i j : Fin n, i ≠ j → assign i = assign j →
      finishTime i ≤ startTime j ∨ finishTime j ≤ startTime i

/-- The number of tasks in flight at instant `t` in a pool execution. -/
def inFlight {n c : Nat} (P : PoolRun n c) (t : Nat) : Nat :=
  (Finset.univ.filter fun i : Fin n =>
    P.startTime i ≤ t ∧ t < P.finishTime i).card

/-! Spec-side view of the extractor's label dispatch, used to reason
about which rows write which field. -/

/-- The seven record fields the table-row loop can write
(`report_date` is set only by the page-level label scan, never by a
table row). -/
inductive TableField where
  | ownership
  | engine
  | vclass
  | notes
  | make
  | model
  | year
  deriving DecidableEq

/-- Read one table field of a `Fields` value. -/
def Fields.get (fs : Fields) : TableField → String
  | .ownership => fs.name_of_ownership
  | .engine => fs.engine_number
  | .vclass => fs.vehicle_class
  | .notes => fs.conditions_and_notes
  | .make => fs.make
  | .model => fs.model
  | .year => fs.year_of_manufacture

/-- Write one table field of a `Fields` value. -/
def Fields.set (fs : Fields) : TableField → String → Fields
  | .ownership, v => { fs with name_of_ownership := v }
  | .engine, v => { fs with engine_number := v }
  | .vclass, v => { fs with vehicle_class := v }
  | .notes, v => { fs with conditions_and_notes := v }
  | .make, v => { fs with make := v }
  | .model, v => { fs with model := v }
  | .year, v => { fs with year_of_manufacture := v }

/-- Which branch of the `if`/`elif` chain fires for a normalized label,
and the value it writes. Mirrors `applyLabel` branch for branch. -/
def labelBranch (label_text value_text : String) : Option (TableField × String) :=
  if pyContains "name of the absolute ownership" label_text
      || pyContains "mortgage if any" label_text then
    some (.ownership, value_text)
  else if pyContains "engine number" label_text then
    some (.engine, value_text)
  else if pyContains "vehicle class" label_text then
    some (.vclass, value_text)
  else if pyContains "conditions and notes" label_text then
    some (.notes, value_text)
  else if pyContains "make" label_text && !pyContains "year" label_text then
    some (.make, value_text)
  else if pyContains "model" label_text then
    some (.model, value_text)
  else if pyContains "year of manufacture" label_text then
    some (.year, value_text)
  else
    none

/-- Which field a table row writes, and the value. -/
def branchOf (cells : List String) : Option (TableField × String) :=
  match cells with
  | label_cell :: _ :: value_cell :: _ =>
      labelBranch (pyLower (pyStrip label_cell)) (pyStrip value_cell)
  | _ => none

/-- `some a` if `a` is `some`, else `b`. -/
def optOr (a b : Option String) : Option String :=
  match a with
  | some v => some v
  | none => b

/-- One step of the last-matching-row scan for field `f`. -/
def lastMatchStep (f : TableField) (acc : Option String)
    (cells : List String) : Option String :=
  match branchOf cells with
  | some p => if p.1 = f then some p.2 else acc
  | none => acc

/-- The value written to field `f` by the last row of `rows` that writes
`f`, if any row does. -/
def lastMatch (f : TableField) (rows : List (List String)) : Option String :=
  rows.foldl (lastMatchStep f) none

/-! Concrete data used to instantiate the theorems below on closed
inputs. -/

/-- A task environment in which every key's future raises the exception
"kaboom" at time 7. -/
def task9 : String → TaskOutcome := fun _ => .raised "kaboom" 7

/-- Five concrete input keys. -/
def keysDemo : List String := ["K1", "K2", "K3", "K4", "K5"]

/-- A network in which every request gets a `200` response whose document
scans with no report date and no results table. -/
def transportDemo : Request → HTTPOutcome := fun _ => .response 200 (.ok ⟨none, none⟩)

/-- All observation times zero. -/
def timesDemo : String → Nat := fun _ => 0

/-- A configuration with concurrency limit 2. -/
def cfgDemo : ScraperConfig := { max_workers := 2 }

/-- A concrete execution of 5 tasks on 2 workers: task `i` runs on worker
`i % 2` over the interval `[i, i+1)`. -/
def poolDemo : PoolRun 5 2 where
  assign := fun i => ⟨i.val % 2, Nat.mod_lt _ (by omega)⟩
  startTime := fun i => i.val
  finishTime := fun i => i.val + 1
  workerSeq := by decide

theorem applyLabel_eq_branch (fs : Fields) (lab v : String) :
    applyLabel fs lab v =
      match labelBranch lab v with
      | some p => fs.set p.1 p.2
      | none => fs := by
  unfold applyLabel labelBranch
  split_ifs <;> rfl

theorem applyRow_eq_branch (fs : Fields) (cells : List String) :
    applyRow fs cells =
      match branchOf cells with
      | some p => fs.set p.1 p.2
      | none => fs := by
  match cells with
  | [] => rfl
  | [_] => rfl
  | [_, _] => rfl
  | l :: x :: v :: t =>
      show applyLabel fs (pyLower (pyStrip l)) (pyStrip v) = _
      rw [applyLabel_eq_branch]
      rfl

theorem Fields.get_set_self (fs : Fields) (f : TableField) (v : String) :
    (fs.set f v).get f = v := by
  cases f <;> rfl

theorem Fields.get_set_ne (fs : Fields) (f g : TableField) (v : String)
    (h : f ≠ g) : (fs.set f v).get g = fs.get g := by
  cases f <;> cases g <;> first | rfl | exact absurd rfl h

theorem foldl_lastMatchStep (f : TableField) (rows : List (List String)) :
    ∀ a : Option String,
      rows.foldl (lastMatchStep f) a = optOr (lastMatch f rows) a := by
  induction rows with
  | nil => intro a; rfl
  | cons c t ih =>
      intro a
      show t.foldl (lastMatchStep f) (lastMatchStep f a c)
        = optOr (t.foldl (lastMatchStep f) (lastMatchStep f none c)) a
      rw [ih, ih]
      cases h : lastMatch f t with
      | some v => rfl
      | none =>
          show lastMatchStep f a c = optOr (lastMatchStep f none c) a
          unfold lastMatchStep
          cases branchOf c with
          | none => rfl
          | some p =>
              by_cases hp : p.1 = f <;> simp [hp, optOr]

/-- After the row loop, field `f` holds the value of the last row that
wrote it, or its initial value when no row wrote it. -/
theorem foldl_applyRow_get (f : TableField) (rows : List (List String)) :
    ∀ fs : Fields,
      (rows.foldl applyRow fs).get f = (lastMatch f rows).getD (fs.get f) := by
  induction rows with
  | nil => intro fs; rfl
  | cons c t ih =>
      intro fs
      show (t.foldl applyRow (applyRow fs c)).get f = _
      rw [ih]
      have hlast : lastMatch f (c :: t)
          = optOr (lastMatch f t) (lastMatchStep f none c) := by
        show t.foldl (lastMatchStep f) (lastMatchStep f none c) = _
        rw [foldl_lastMatchStep]
      rw [hlast]
      cases hm : lastMatch f t with
      | some v => rfl
      | none =>
          show (applyRow fs c).get f = ((lastMatchStep f none c).getD (fs.get f))
          rw [applyRow_eq_branch]
          unfold lastMatchStep
          cases branchOf c with
          | none => rfl
          | some p =>
              by_cases hp : p.1 = f
              · subst hp; simp [Fields.get_set_self]
              · simp [hp, Fields.get_set_ne fs p.1 f p.2 hp]

theorem applyRow_report_date (fs : Fields) (cells : List String) :
    (applyRow fs cells).report_date = fs.report_date := by
  rw [applyRow_eq_branch]
  cases h : branchOf cells with
  | none => rfl
  | some p => obtain ⟨f, v⟩ := p; cases f <;> rfl

theorem foldl_report_date (rows : List (List String)) :
    ∀ fs : Fields, (rows.foldl applyRow fs).report_date = fs.report_date := by
  induction rows with
  | nil => intro _; rfl
  | cons c t ih =>
      intro fs
      show (t.foldl applyRow (applyRow fs c)).report_date = _
      rw [ih, applyRow_report_date]

/-- C4, counterexample. The claim says the first matching row wins and
later duplicate-label rows are ignored; on a table with two
"Engine Number" rows carrying values "A" then "B", the extractor returns
"B" — the later row overwrites the earlier one. -/
theorem claim4_counterexample :
    (parse_vehicle_info
        (.ok ⟨none, some [["Engine Number", "-", "A"], ["Engine Number", "-", "B"]]⟩)
        "X" 0).attrs.map Fields.engine_number = some "B"
    ∧ ¬ ((parse_vehicle_info
        (.ok ⟨none, some [["Engine Number", "-", "A"], ["Engine Number", "-", "B"]]⟩)
        "X" 0).attrs.map Fields.engine_number = some "A") := by
  decide

/-- C4, amended: when two or more rows of the results table write the
same field, the extractor populates that field with the value from the
LAST matching row — each matching row assigns the field, so later
duplicate-label rows overwrite earlier ones; a field no row writes stays
the empty string. -/
theorem claim4_amended (rd : Option String) (rows : List (List String))
    (vn : String) (now : Nat) (f : TableField) :
    ∃ fields : Fields,
      (parse_vehicle_info (.ok ⟨rd, some rows⟩) vn now).attrs = some fields
      ∧ fields.get f = (lastMatch f rows).getD "" := by
  cases rd with
  | none =>
      refine ⟨rows.foldl applyRow {}, rfl, ?_⟩
      rw [foldl_applyRow_get]
      have h : (({} : Fields)).get f = "" := by cases f <;> rfl
      rw [h]
  | some d =>
      refine ⟨rows.foldl applyRow { report_date := pyStrip d }, rfl, ?_⟩
      rw [foldl_applyRow_get]
      have h : (({ report_date := pyStrip d } : Fields)).get f = "" := by
        cases f <;> rfl
      rw [h]

/-- C5: label matching compares lower-cased, stripped label text
(conjunct 1: the effect of a row depends on its label only through
`pyLower (pyStrip label)`, and on nothing else but the stripped value
cell); a row populates `make` only when its normalized label contains
"make" and does not contain "year" (conjunct 2); a "Year of Manufacture"
label never populates `make` and populates `year_of_manufacture`, while
a bare "Make" label does populate `make` (conjuncts 3 and 4); and in the
record returned for any scanned document the attribute set is present
with every field that no table row (resp. no report-date label) wrote
equal to the empty string, not null or absent (conjunct 5). -/
theorem claim5_label_matching :
    (∀ (fs : Fields) (l l2 x x2 v : String) (t t2 : List String),
        pyLower (pyStrip l) = pyLower (pyStrip l2) →
        applyRow fs (l :: x :: v :: t) = applyRow fs (l2 :: x2 :: v :: t2))
    ∧ (∀ (fs : Fields) (l x v : String) (t : List String),
        ¬(pyContains "make" (pyLower (pyStrip l)) = true
            ∧ pyContains "year" (pyLower (pyStrip l)) = false) →
        (applyRow fs (l :: x :: v :: t)).make = fs.make)
    ∧ (∀ (fs : Fields) (x v : String) (t : List String),
        (applyRow fs ("Year of Manufacture" :: x :: v :: t)).make = fs.make
        ∧ (applyRow fs ("Year of Manufacture" :: x :: v :: t)).year_of_manufacture
            = pyStrip v)
    ∧ (∀ (fs : Fields) (x v : String) (t : List String),
        (applyRow fs ("Make" :: x :: v :: t)).make = pyStrip v)
    ∧ (∀ (rd : Option String) (tbl : Option (List (List String)))
        (vn : String) (now : Nat) (f : TableField),
        ∃ fields : Fields,
          (parse_vehicle_info (.ok ⟨rd, tbl⟩) vn now).attrs = some fields
          ∧ (lastMatch f (tbl.getD []) = none → fields.get f = "")
          ∧ (rd = none → fields.report_date = "")) := by
  refine ⟨?_, ?_, ?_, ?_, ?_⟩
  · intro fs l l2 x x2 v t t2 h
    show applyLabel fs (pyLower (pyStrip l)) (pyStrip v)
      = applyLabel fs (pyLower (pyStrip l2)) (pyStrip v)
    rw [h]
  · intro fs l x v t h
    show (applyLabel fs (pyLower (pyStrip l)) (pyStrip v)).make = fs.make
    unfold applyLabel
    split_ifs with h1 h2 h3 h4 h5 h6 h7 <;> try rfl
    rcases Bool.and_eq_true _ _ |>.mp h5 with ⟨hm, hy⟩
    exact absurd ⟨hm, by simpa using hy⟩ h
  · intro fs x v t
    exact ⟨rfl, rfl⟩
  · intro fs x v t
    rfl
  · intro rd tbl vn now f
    cases rd with
    | none =>
        cases tbl with
        | none => exact ⟨{}, rfl, fun _ => by cases f <;> rfl, fun _ => rfl⟩
        | some rows =>
            refine ⟨rows.foldl applyRow {}, rfl, fun hlm => ?_, fun _ => ?_⟩
            · rw [foldl_applyRow_get, show lastMatch f rows = none from hlm]
              cases f <;> rfl
            · rw [foldl_report_date]
    | some d =>
        cases tbl with
        | none =>
            refine ⟨{ report_date := pyStrip d }, rfl, fun _ => by cases f <;> rfl,
              fun hrd => by cases hrd⟩
        | some rows =>
            refine ⟨rows.foldl applyRow { report_date := pyStrip d }, rfl,
              fun hlm => ?_, fun hrd => by cases hrd⟩
            rw [foldl_applyRow_get, show lastMatch f rows = none from hlm]
            cases f <;> rfl

/-- C5, witness: conjunct 1 applied to the labels "ENGINE NUMBER" and
" engine number" (equal after stripping and lowering), conjunct 3 to a
"Year of Manufacture" row, conjunct 4 to a bare "Make" row. -/
theorem claim5_witness :
    applyRow {} ["ENGINE NUMBER", "-", " E1 "]
        = applyRow {} [" engine number", "x", " E1 ", "z"]
    ∧ (applyRow {} ["Year of Manufacture", "-", "1999"]).make = ""
    ∧ (applyRow {} ["Make", "-", " Toyota "]).make = "Toyota" := by
  obtain ⟨h1, h2, h3, h4, h5⟩ := claim5_label_matching
  refine ⟨h1 {} "ENGINE NUMBER" " engine number" "-" "x" " E1 " [] ["z"] (by decide),
    (h3 {} "-" "1999" []).1, (h4 {} "-" " Toyota " []).trans (by decide)⟩

/-- C6, counterexample. The claim says a document with no results table
yields a record whose extracted fields are ALL empty strings; but a
table-less document carrying a page-level "Report Date" label yields a
`success` record whose `report_date` field is non-empty. -/
theorem claim6_counterexample :
    (parse_vehicle_info (.ok ⟨some " 05/10/2025 ", none⟩) "X" 0).status = "success"
    ∧ (parse_vehicle_info (.ok ⟨some " 05/10/2025 ", none⟩) "X" 0).attrs.map
        Fields.report_date = some "05/10/2025"
    ∧ ¬ ((parse_vehicle_info (.ok ⟨some " 05/10/2025 ", none⟩) "X" 0).attrs.map
        Fields.report_date = some "") := by
  decide

/-- C6, amended: a scanned document with no results table yields status
`success` with the seven table-derived fields empty — table absence is
not an error — though `report_date` may still be populated from the
page-level "Report Date" label; and the extractor returns status
`parse_error` (the code's spelling of `parse_failed`), with an error
message, exactly when a structural error occurs while scanning. -/
theorem claim6_amended :
    (∀ (rd : Option String) (vn : String) (now : Nat),
        (parse_vehicle_info (.ok ⟨rd, none⟩) vn now).status = "success"
        ∧ (parse_vehicle_info (.ok ⟨rd, none⟩) vn now).attrs
            = some { report_date := (rd.map pyStrip).getD "" })
    ∧ (∀ (html : HtmlContent) (vn : String) (now : Nat),
        (parse_vehicle_info html vn now).status = "parse_error"
          ↔ ∃ e, html = HtmlContent.scanError e)
    ∧ (∀ (e vn : String) (now : Nat),
        (parse_vehicle_info (.scanError e) vn now).error
          = some ("HTML parsing failed: " ++ e)) := by
  refine ⟨?_, ?_, fun e vn now => rfl⟩
  · intro rd vn now
    cases rd with
    | none => exact ⟨rfl, rfl⟩
    | some d => exact ⟨rfl, rfl⟩
  · intro html vn now
    cases html with
    | ok soup =>
        constructor
        · intro h
          have h2 : ("success" : String) = "parse_error" := h
          exact absurd h2 (by decide)
        · rintro ⟨e, h⟩
          exact HtmlContent.noConfusion h
    | scanError e =>
        exact ⟨fun _ => ⟨e, rfl⟩, fun _ => rfl⟩

/-- C6, witness: the amended theorem applied to a table-less document
and to a scan error. -/
theorem claim6_witness :
    (parse_vehicle_info (.ok ⟨none, none⟩) "V" 3).status = "success"
    ∧ (parse_vehicle_info (.scanError "boom") "V" 3).status = "parse_error" := by
  exact ⟨(claim6_amended.1 none "V" 3).1,
    (claim6_amended.2.1 (.scanError "boom") "V" 3).mpr ⟨"boom", rfl⟩⟩

theorem get_vehicle_info_requests (cfg : ScraperConfig)
    (transport : Request → HTTPOutcome) (vn : String) (now : Nat) :
    (get_vehicle_info cfg transport vn now).2 = [mkRequest cfg vn] := by
  cases h : transport (mkRequest cfg vn) with
  | response code text =>
      by_cases hc : (code == 200) = true <;> simp [get_vehicle_info, h, hc]
  | transportError e => simp [get_vehicle_info, h]

theorem get_vehicle_info_200 (cfg : ScraperConfig)
    (transport : Request → HTTPOutcome) (vn : String) (now : Nat)
    (text : HtmlContent) (h : transport (mkRequest cfg vn) = .response 200 text) :
    (get_vehicle_info cfg transport vn now).1 = parse_vehicle_info text vn now := by
  simp [get_vehicle_info, h]

theorem get_vehicle_info_non200 (cfg : ScraperConfig)
    (transport : Request → HTTPOutcome) (vn : String) (now : Nat)
    (code : Nat) (text : HtmlContent)
    (h : transport (mkRequest cfg vn) = .response code text) (hne : code ≠ 200) :
    (get_vehicle_info cfg transport vn now).1 =
      { vehicle_number := vn, attrs := none, status := "failed",
        error := some ("HTTP " ++ toString code), timestamp := now } := by
  have hc : (code == 200) = false := by simpa using hne
  simp [get_vehicle_info, h, hc]

theorem get_vehicle_info_exn (cfg : ScraperConfig)
    (transport : Request → HTTPOutcome) (vn : String) (now : Nat)
    (e : TransportExn) (h : transport (mkRequest cfg vn) = .transportError e) :
    (get_vehicle_info cfg transport vn now).1 =
      { vehicle_number := vn, attrs := none, status := "failed",
        error := some e.str, timestamp := now } := by
  simp [get_vehicle_info, h]

/-- C7: `get_vehicle_info` issues exactly one outbound request (never
retries), the request carries a timeout of 30 units; any response whose
status is not 2xx (a fortiori not the single accepted code 200) yields a
`failed` record whose reason is the text `HTTP {code}` — for a 500
response the reason contains "500" — and a raised request timeout yields
a `failed` record whose reason mentions "timed out". -/
theorem claim7_fetch_contract (cfg : ScraperConfig)
    (transport : Request → HTTPOutcome) (vn : String) (now : Nat) :
    ((get_vehicle_info cfg transport vn now).2 = [mkRequest cfg vn])
    ∧ ((mkRequest cfg vn).timeout = 30)
    ∧ (∀ code text, transport (mkRequest cfg vn) = .response code text →
        ¬(200 ≤ code ∧ code < 300) →
        (get_vehicle_info cfg transport vn now).1.status = "failed"
        ∧ (get_vehicle_info cfg transport vn now).1.error
            = some ("HTTP " ++ toString code))
    ∧ (∀ text, transport (mkRequest cfg vn) = .response 500 text →
        ∃ reason, (get_vehicle_info cfg transport vn now).1.error = some reason
          ∧ pyContains "500" reason = true)
    ∧ (transport (mkRequest cfg vn) = .transportError .timeoutErr →
        ∃ reason, (get_vehicle_info cfg transport vn now).1.error = some reason
          ∧ pyContains "timed out" reason = true) := by
  refine ⟨get_vehicle_info_requests cfg transport vn now, rfl, ?_, ?_, ?_⟩
  · intro code text h hcode
    have hne : code ≠ 200 := by
      intro h2
      subst h2
      exact hcode ⟨by omega, by omega⟩
    rw [get_vehicle_info_non200 cfg transport vn now code text h hne]
    exact ⟨rfl, rfl⟩
  · intro text h
    refine ⟨"HTTP " ++ toString 500, ?_, by decide⟩
    rw [get_vehicle_info_non200 cfg transport vn now 500 text h (by omega)]
  · intro h
    refine ⟨TransportExn.timeoutErr.str, ?_, by decide⟩
    rw [get_vehicle_info_exn cfg transport vn now _ h]

/-- C7, witness: the contract applied to a network that answers HTTP 500. -/
theorem claim7_witness :
    ((get_vehicle_info {} (fun _ => .response 500 (.ok ⟨none, none⟩)) "WP1" 0).2.length = 1)
    ∧ ((get_vehicle_info {} (fun _ => .response 500 (.ok ⟨none, none⟩)) "WP1" 0).1.status
        = "failed")
    ∧ ((get_vehicle_info {} (fun _ => .response 500 (.ok ⟨none, none⟩)) "WP1" 0).1.error
        = some "HTTP 500") := by
  obtain ⟨hreq, _, hnon2xx, _, _⟩ :=
    claim7_fetch_contract {} (fun _ => .response 500 (.ok ⟨none, none⟩)) "WP1" 0
  obtain ⟨hst, herr⟩ := hnon2xx 500 (.ok ⟨none, none⟩) rfl (by omega)
  exact ⟨by rw [hreq]; rfl, hst, herr.trans (by decide)⟩

theorem parse_vehicle_info_invariant (html : HtmlContent) (vn : String) (now : Nat) :
    ((parse_vehicle_info html vn now).vehicle_number = vn)
    ∧ ((parse_vehicle_info html vn now).status = "success"
        ∨ (parse_vehicle_info html vn now).status = "failed"
        ∨ (parse_vehicle_info html vn now).status = "parse_error")
    ∧ (((parse_vehicle_info html vn now).status = "failed"
        ∨ (parse_vehicle_info html vn now).status = "parse_error")
        → (parse_vehicle_info html vn now).error.isSome = true)
    ∧ ((parse_vehicle_info html vn now).status = "success"
        → (parse_vehicle_info html vn now).attrs.isSome = true) := by
  cases html with
  | ok soup =>
      refine ⟨rfl, Or.inl rfl, ?_, fun _ => rfl⟩
      rintro (h | h) <;>
        exact absurd (show ("success" : String) = _ from h) (by decide)
  | scanError e =>
      refine ⟨rfl, Or.inr (Or.inr rfl), fun _ => rfl, ?_⟩
      intro h
      exact absurd (show ("parse_error" : String) = "success" from h) (by decide)

theorem taskRecord_finished (cfg : ScraperConfig) (task : String → TaskOutcome)
    (vn : String) (transport : Request → HTTPOutcome) (now : Nat)
    (h : task vn = .finished transport now) :
    taskRecord cfg task vn = (get_vehicle_info cfg transport vn now).1 := by
  simp [taskRecord, h]

theorem taskRecord_raised (cfg : ScraperConfig) (task : String → TaskOutcome)
    (vn : String) (msg : String) (now : Nat) (h : task vn = .raised msg now) :
    taskRecord cfg task vn =
      { vehicle_number := vn, attrs := none, status := "failed",
        error := some msg, timestamp := now } := by
  simp [taskRecord, h]

theorem taskRecord_invariant (cfg : ScraperConfig) (task : String → TaskOutcome)
    (vn : String) :
    ((taskRecord cfg task vn).vehicle_number = vn)
    ∧ ((taskRecord cfg task vn).status = "success"
        ∨ (taskRecord cfg task vn).status = "failed"
        ∨ (taskRecord cfg task vn).status = "parse_error")
    ∧ (((taskRecord cfg task vn).status = "failed"
        ∨ (taskRecord cfg task vn).status = "parse_error")
        → (taskRecord cfg task vn).error.isSome = true)
    ∧ ((taskRecord cfg task vn).status = "success"
        → (taskRecord cfg task vn).attrs.isSome = true) := by
  cases htask : task vn with
  | finished transport now =>
      rw [taskRecord_finished cfg task vn transport now htask]
      cases h : transport (mkRequest cfg vn) with
      | response code text =>
          by_cases hc : code = 200
          · subst hc
            rw [get_vehicle_info_200 cfg transport vn now text h]
            exact parse_vehicle_info_invariant text vn now
          · rw [get_vehicle_info_non200 cfg transport vn now code text h hc]
            exact ⟨rfl, Or.inr (Or.inl rfl), fun _ => rfl, fun h2 =>
              absurd (show ("failed" : String) = "success" from h2) (by decide)⟩
      | transportError e =>
          rw [get_vehicle_info_exn cfg transport vn now e h]
          exact ⟨rfl, Or.inr (Or.inl rfl), fun _ => rfl, fun h2 =>
            absurd (show ("failed" : String) = "success" from h2) (by decide)⟩
  | raised msg now =>
      rw [taskRecord_raised cfg task vn msg now htask]
      exact ⟨rfl, Or.inr (Or.inl rfl), fun _ => rfl, fun h2 =>
        absurd (show ("failed" : String) = "success" from h2) (by decide)⟩

theorem taskRecord_key (cfg : ScraperConfig) (task : String → TaskOutcome)
    (vn : String) : (taskRecord cfg task vn).vehicle_number = vn :=
  (taskRecord_invariant cfg task vn).1

/-- C9: every record the coordinator collects belongs to one of the
processed keys and carries that key; its status is one of `success`,
`failed` (the code's spelling of `fetch_failed`) and `parse_error` (the
code's `parse_failed`); a `failed` or `parse_error` status implies the
error message is present; a `success` status implies the full fixed set
of extracted string attributes is present (each possibly empty). The
creation timestamp is the `timestamp` field every `Record` carries. -/
theorem claim9_record_invariant (cfg : ScraperConfig)
    (task : String → TaskOutcome) (completed : List String) :
    ∀ r ∈ process_vehicles cfg task completed,
      (∃ vn ∈ completed, r = taskRecord cfg task vn ∧ r.vehicle_number = vn)
      ∧ (r.status = "success" ∨ r.status = "failed" ∨ r.status = "parse_error")
      ∧ ((r.status = "failed" ∨ r.status = "parse_error") → r.error.isSome = true)
      ∧ (r.status = "success" → r.attrs.isSome = true) := by
  intro r hr
  obtain ⟨vn, hvn, rfl⟩ := List.mem_map.mp hr
  obtain ⟨h1, h2, h3, h4⟩ := taskRecord_invariant cfg task vn
  exact ⟨⟨vn, hvn, rfl, h1⟩, h2, h3, h4⟩

/-- C9, witness: the invariant applied to the single record of a run
whose only task raised an exception. -/
theorem claim9_witness :
    ((taskRecord {} task9 "A").vehicle_number = "A")
    ∧ ((taskRecord {} task9 "A").error.isSome = true) := by
  obtain ⟨⟨vn, hvn, heq, hk⟩, _, h3, _⟩ :=
    claim9_record_invariant {} task9 ["A"] (taskRecord {} task9 "A")
      (List.mem_singleton_self _)
  have hva : vn = "A" := by simpa using hvn
  exact ⟨hva ▸ hk, h3 (Or.inl rfl)⟩

/-- C1: for every non-empty input key list, when no cancellation occurs
the pooled run returns exactly one record per input key occurrence: the
output has the input's length and is, as a multiset, the per-key record
of every input key (so no key is silently dropped, whatever the
completion order); a key carries its own key in the record; and an
unexpected exception raised in a key's task is caught at the
`future.result()` boundary and converted into a `failed`-status record
carrying the exception text, terminating nothing. -/
theorem claim1_one_record_per_key (cfg : ScraperConfig)
    (task : String → TaskOutcome) (keys completed : List String)
    (_hne : keys ≠ []) (hperm : completed.Perm keys) :
    ((process_vehicles cfg task completed).length = keys.length)
    ∧ ((process_vehicles cfg task completed).Perm
        (keys.map (taskRecord cfg task)))
    ∧ (∀ vn ∈ keys, (taskRecord cfg task vn).vehicle_number = vn)
    ∧ (∀ vn msg now, task vn = .raised msg now →
        taskRecord cfg task vn =
          { vehicle_number := vn, attrs := none, status := "failed",
            error := some msg, timestamp := now }) := by
  refine ⟨?_, hperm.map (taskRecord cfg task),
    fun vn _ => taskRecord_key cfg task vn,
    fun vn msg now h => taskRecord_raised cfg task vn msg now h⟩
  show (completed.map (taskRecord cfg task)).length = keys.length
  rw [List.length_map]
  exact hperm.length_eq

/-- C1, witness: a singleton run whose only task raised. -/
theorem claim1_witness :
    ((process_vehicles {} task9 ["A"]).length = 1)
    ∧ ((taskRecord {} task9 "A").error = some "kaboom") := by
  obtain ⟨h1, _, _, h4⟩ :=
    claim1_one_record_per_key {} task9 ["A"] ["A"] (by decide) (List.Perm.refl _)
  refine ⟨h1, ?_⟩
  rw [h4 "A" "kaboom" 7 rfl]

/-- C3, counterexample. The claim says the coordinator indexes each
completed result back to its input position so that the returned
sequence corresponds position-by-position to the input key sequence
regardless of completion order; but for input keys `["A", "B"]` whose
futures complete in the order `["B", "A"]`, the returned sequence is in
completion order `["B", "A"]`, not input order. -/
theorem claim3_counterexample :
    ((["B", "A"] : List String).Perm ["A", "B"])
    ∧ ((process_vehicles {} task9 ["B", "A"]).map Record.vehicle_number
        = ["B", "A"])
    ∧ ¬ ((process_vehicles {} task9 ["B", "A"]).map Record.vehicle_number
        = ["A", "B"]) := by
  refine ⟨by decide, by decide, by decide⟩

theorem find?_beq_self {k : String} :
    ∀ {l : List String}, k ∈ l → l.find? (fun x => x == k) = some k := by
  intro l
  induction l with
  | nil => intro h; cases h
  | cons a t ih =>
      intro h
      by_cases ha : (a == k) = true
      · have ha2 : a = k := by simpa using ha
        subst ha2
        rw [List.find?_cons_of_pos _ (by simp)]
      · have hk2 : k ∈ t := by
          rcases List.mem_cons.mp h with h1 | h1
          · exact absurd (by simp [h1]) ha
          · exact h1
        rw [List.find?_cons_of_neg _ (by simpa using ha), ih hk2]

/-- C3, amended: the coordinator appends records in completion order, so
the returned sequence need not correspond position-by-position to the
input keys; but every record carries its input key, so for a
duplicate-free input the input-ordered record sequence is reconstructible
by looking up each input key's record (the code does not itself index
results back to input position). -/
theorem claim3_amended (cfg : ScraperConfig) (task : String → TaskOutcome)
    (keys completed : List String) (hperm : completed.Perm keys)
    (_hnd : keys.Nodup) :
    ((process_vehicles cfg task completed).map Record.vehicle_number = completed)
    ∧ (∀ k ∈ keys,
        (process_vehicles cfg task completed).find?
          (fun r => r.vehicle_number == k) = some (taskRecord cfg task k))
    ∧ ((keys.map fun k =>
          (process_vehicles cfg task completed).find?
            (fun r => r.vehicle_number == k))
        = keys.map (fun k => some (taskRecord cfg task k))) := by
  have h2 : ∀ k ∈ keys,
      (process_vehicles cfg task completed).find?
        (fun r => r.vehicle_number == k) = some (taskRecord cfg task k) := by
    intro k hk
    show (completed.map (taskRecord cfg task)).find?
      (fun r => r.vehicle_number == k) = _
    rw [List.find?_map]
    have hp : ((fun r : Record => r.vehicle_number == k) ∘ taskRecord cfg task)
        = fun vn => vn == k := by
      funext vn
      simp [Function.comp, taskRecord_key]
    rw [hp, find?_beq_self (hperm.mem_iff.mpr hk)]
    rfl
  refine ⟨?_, h2, List.map_congr_left h2⟩
  show (completed.map (taskRecord cfg task)).map Record.vehicle_number = completed
  rw [List.map_map]
  have hc : (Record.vehicle_number ∘ taskRecord cfg task) = fun vn => vn := by
    funext vn
    exact taskRecord_key cfg task vn
  rw [hc]
  exact List.map_id' completed

/-- C3, witness: reconstructing the record of key "A" from a run whose
futures completed in reverse order. -/
theorem claim3_witness :
    (process_vehicles {} task9 ["B", "A"]).find?
      (fun r => r.vehicle_number == "A") = some (taskRecord {} task9 "A") :=
  (claim3_amended {} task9 ["A", "B"] ["B", "A"] (by decide) (by decide)).2.1
    "A" (by decide)

theorem webResults_none (cfg : ScraperConfig) (transport : Request → HTTPOutcome)
    (times : String → Nat) :
    ∀ (keys : List String) (i : Nat),
      webResults cfg transport times none keys i
        = keys.map fun vn => (get_vehicle_info cfg transport vn (times vn)).1 := by
  intro keys
  induction keys with
  | nil => intro i; rfl
  | cons vn rest ih =>
      intro i
      simp [webResults, cancelledAt, ih (i + 1)]

theorem webResults_cancel (cfg : ScraperConfig) (transport : Request → HTTPOutcome)
    (times : String → Nat) (c : Nat) :
    ∀ (keys : List String) (i : Nat),
      webResults cfg transport times (some c) keys i
        = ((keys.take (c - i)).map
            fun vn => (get_vehicle_info cfg transport vn (times vn)).1) := by
  intro keys
  induction keys with
  | nil => intro i; simp [webResults]
  | cons vn rest ih =>
      intro i
      by_cases h : c ≤ i
      · have h0 : c - i = 0 := Nat.sub_eq_zero_of_le h
        simp [webResults, cancelledAt, h, h0]
      · have h2 : ¬ (decide (c ≤ i) = true) := by simpa using h
        have h3 : c - i = (c - (i + 1)) + 1 := by omega
        simp only [webResults, cancelledAt]
        rw [if_neg h2, ih (i + 1), h3, List.take_succ_cons, List.map_cons]

/-- C10: a web-front-end run that is never cancelled processes its keys
strictly sequentially in input order — the collected record list equals
the sequential map of the single-key operation over the input key
sequence — and this is independent of the configured `max_workers`
(`run_scraping_task` loops over the keys itself and never invokes the
thread-pool coordinator `process_vehicles`). -/
theorem claim10_sequential_web (cfg : ScraperConfig)
    (transport : Request → HTTPOutcome) (times : String → Nat)
    (keys : List String) :
    ((run_scraping_task cfg transport times keys none).results
        = keys.map fun vn => (get_vehicle_info cfg transport vn (times vn)).1)
    ∧ (∀ w : Nat,
        run_scraping_task { cfg with max_workers := w } transport times keys none
          = run_scraping_task cfg transport times keys none) := by
  constructor
  · exact webResults_none cfg transport times keys 0
  · intro w
    unfold run_scraping_task
    rw [webResults_none, webResults_none]
    rfl

/-- C10, witness: the sequential-map equation on the concrete demo run. -/
theorem claim10_witness :
    (run_scraping_task {} transportDemo timesDemo keysDemo none).results
      = keysDemo.map fun vn => (get_vehicle_info {} transportDemo vn (timesDemo vn)).1 :=
  (claim10_sequential_web {} transportDemo timesDemo keysDemo).1

/-- C2, counterexample. The claim says the final completion descriptor of
a cancelled run reports `cancelled = true`, distinguishing it from a run
that finished all keys; but the terminal status `run_scraping_task`
writes has no cancelled indicator at all: cancelling a 5-key run after 2
keys yields 2 records, yet every terminal descriptor field
(`is_running`, `progress`, `completed`, `error`) is identical to that of
the uncancelled run — in particular `completed = true` and
`progress = 5` even though only 2 keys were processed. -/
theorem claim2_counterexample :
    ((run_scraping_task {} transportDemo timesDemo keysDemo (some 2)).results.length = 2)
    ∧ ((run_scraping_task {} transportDemo timesDemo keysDemo none).results.length = 5)
    ∧ ((run_scraping_task {} transportDemo timesDemo keysDemo (some 2)).completed
        = (run_scraping_task {} transportDemo timesDemo keysDemo none).completed)
    ∧ ((run_scraping_task {} transportDemo timesDemo keysDemo (some 2)).progress
        = (run_scraping_task {} transportDemo timesDemo keysDemo none).progress)
    ∧ ((run_scraping_task {} transportDemo timesDemo keysDemo (some 2)).is_running
        = (run_scraping_task {} transportDemo timesDemo keysDemo none).is_running)
    ∧ ((run_scraping_task {} transportDemo timesDemo keysDemo (some 2)).error
        = (run_scraping_task {} transportDemo timesDemo keysDemo none).error)
    ∧ ((run_scraping_task {} transportDemo timesDemo keysDemo (some 2)).completed = true) := by
  decide

/-- C2, amended: if stop is requested after `k` of `n` keys have
completed and before the rest are dispatched, the run ends with exactly
`k` records — the already-collected records, the `k`-prefix of the full
run, are not rolled back — but the terminal status reports
`completed = true` and `progress = n` with no cancelled flag; a
cancelled run is distinguishable from one that finished all keys only by
comparing the record count to the total. -/
theorem claim2_amended (cfg : ScraperConfig) (transport : Request → HTTPOutcome)
    (times : String → Nat) (keys : List String) (k : Nat)
    (hk : k ≤ keys.length) :
    ((run_scraping_task cfg transport times keys (some k)).results.length = k)
    ∧ ((run_scraping_task cfg transport times keys (some k)).results
        = (keys.take k).map
            fun vn => (get_vehicle_info cfg transport vn (times vn)).1)
    ∧ ((run_scraping_task cfg transport times keys (some k)).results
        = (run_scraping_task cfg transport times keys none).results.take k)
    ∧ ((run_scraping_task cfg transport times keys (some k)).completed = true)
    ∧ ((run_scraping_task cfg transport times keys (some k)).progress
        = keys.length) := by
  have hres : (run_scraping_task cfg transport times keys (some k)).results
      = (keys.take k).map
          fun vn => (get_vehicle_info cfg transport vn (times vn)).1 := by
    show webResults cfg transport times (some k) keys 0 = _
    rw [webResults_cancel, Nat.sub_zero]
  refine ⟨?_, hres, ?_, rfl, rfl⟩
  · rw [hres, List.length_map, List.length_take]
    omega
  · show webResults cfg transport times (some k) keys 0
      = (webResults cfg transport times none keys 0).take k
    rw [webResults_cancel, Nat.sub_zero, webResults_none, List.map_take]

/-- C2, witness: cancelling the demo run after 3 of its 5 keys. -/
theorem claim2_witness :
    ((run_scraping_task {} transportDemo timesDemo keysDemo (some 3)).results.length = 3)
    ∧ ((run_scraping_task {} transportDemo timesDemo keysDemo (some 3)).completed = true) := by
  obtain ⟨h1, _, _, h4, _⟩ :=
    claim2_amended {} transportDemo timesDemo keysDemo 3 (by decide)
  exact ⟨h1, h4⟩

/-- C8: in any timed execution of the submitted tasks on the worker pool
of `process_vehicles` (a pool of `max_workers` workers, each running its
assigned tasks sequentially), at most `max_workers` fetch tasks are in
flight at any instant. -/
theorem claim8_bounded_concurrency (cfg : ScraperConfig) (keys : List String)
    (P : PoolRun keys.length cfg.max_workers) (t : Nat) :
    inFlight P t ≤ cfg.max_workers := by
  have hcard : (Finset.univ.filter fun i : Fin keys.length =>
      P.startTime i ≤ t ∧ t < P.finishTime i).card
      ≤ (Finset.univ : Finset (Fin cfg.max_workers)).card := by
    apply Finset.card_le_card_of_injOn P.assign (fun a _ => Finset.mem_univ _)
    intro i hi j hj hij
    by_contra hne
    simp only [Finset.coe_filter, Set.mem_setOf_eq, Finset.mem_univ,
      true_and] at hi hj
    rcases P.workerSeq i j hne hij with h | h <;> omega
  simpa using hcard

/-- C8, witness: the demo execution of 5 tasks on 2 workers, at instant 3. -/
theorem claim8_witness : inFlight poolDemo 3 ≤ 2 :=
  claim8_bounded_concurrency cfgDemo keysDemo poolDemo 3

end VehicleScraper
